import Mathlib

/-!
Verification of the dependency-tracking core (models.py, service.py, stats.py,
main.py) against its natural-language specification.

Timestamps are modelled as integers counting seconds; the Python value
`timedelta(days = d)` corresponds to `d * 86400` seconds, and the Python
expression `(a - b).days` corresponds to `Int.fdiv (a - b) 86400` (Python
timedelta days are a floor division). Each stats function receives the
module-level collection `DEPENDENCIES` and the captured `datetime.utcnow()`
value as explicit parameters.
-/

namespace DepTrack

/-- Timestamps in seconds, as an integer. -/
abbrev Time := Int

/-- Seconds in one day, the unit behind `timedelta(days = d)`. -/
def secondsPerDay : Int := 86400

/-- Python `(a - b).days` for datetimes `a`, `b`: floor division of the
difference in seconds by 86400. -/
def daysBetween (a b : Time) : Int := Int.fdiv (a - b) secondsPerDay

/-- Embedding of the dictionary produced by `Dependency.to_dict` in models.py:
the record shape that stats.py consumes. Optional datetime fields are `Option`
(absent means the JSON value null). -/
structure DepDict where
  id : String
  name : String
  testVersion : String
  prodVersion : Option String
  testLastUpdated : Option Time
  productionLastUpdated : Option Time
  testNextUpdate : Option Time
  productionNextUpdate : Option Time
  sourceUrl : Option String
  changelogUrl : Option String
  homepageUrl : Option String
  createdAt : Option Time
  updatedAt : Option Time
deriving Repr, DecidableEq

/-- Python string truthiness applied to an optional string, as in
`if prod_version:` in stats.py: None and the empty string are falsy. -/
def truthyOptStr : Option String → Bool
  | none => false
  | some s => !s.isEmpty

/-- Version-drift test from stats.py lines 29 to 33:
`if prod_version and test_version != prod_version`. -/
def isVersionDrift (d : DepDict) : Bool :=
  match d.prodVersion with
  | none => false
  | some p => !p.isEmpty && d.testVersion != p

/-- Overdue test from stats.py lines 38 to 54: a truthy next-update field
strictly before `now` in either environment. -/
def isOverdue (now : Time) (d : DepDict) : Bool :=
  (match d.testNextUpdate with
   | some t => decide (t < now)
   | none => false) ||
  (match d.productionNextUpdate with
   | some t => decide (t < now)
   | none => false)

/-- Test-only test from stats.py lines 58 to 61: `if not prod_version`, the
Python negation of string truthiness (no whitespace trimming). -/
def isTestOnly (d : DepDict) : Bool := !truthyOptStr d.prodVersion

/-- Recently-updated test from stats.py lines 66 to 82: a last-updated field
at or after `now` minus thirty days in either environment. -/
def isRecentlyUpdated (now : Time) (d : DepDict) : Bool :=
  (match d.testLastUpdated with
   | some t => decide (now - 30 * secondsPerDay ≤ t)
   | none => false) ||
  (match d.productionLastUpdated with
   | some t => decide (now - 30 * secondsPerDay ≤ t)
   | none => false)

/-- Result shape of `get_dependency_health_overview` in stats.py. -/
structure HealthOverview where
  totalCount : Nat
  versionDriftCount : Nat
  versionDriftDependencies : List String
  overdueUpdatesCount : Nat
  overdueUpdatesDependencies : List String
  testOnlyCount : Nat
  testOnlyDependencies : List String
  recentlyUpdatedCount : Nat
  recentlyUpdatedDependencies : List String
deriving Repr, DecidableEq

/-- Embedding of `get_dependency_health_overview` from stats.py lines 10 to 94.
The module-level collection `DEPENDENCIES` and the single captured
`datetime.utcnow()` are explicit parameters; each Python append loop over
`DEPENDENCIES` is the corresponding filter-and-map in traversal order. -/
def get_dependency_health_overview (deps : List DepDict) (now : Time) :
    HealthOverview :=
  let drift := (deps.filter isVersionDrift).map (fun d => d.name)
  let overdue := (deps.filter (isOverdue now)).map (fun d => d.name)
  let testOnly := (deps.filter isTestOnly).map (fun d => d.name)
  let recent := (deps.filter (isRecentlyUpdated now)).map (fun d => d.name)
  { totalCount := deps.length
    versionDriftCount := drift.length
    versionDriftDependencies := drift
    overdueUpdatesCount := overdue.length
    overdueUpdatesDependencies := overdue
    testOnlyCount := testOnly.length
    testOnlyDependencies := testOnly
    recentlyUpdatedCount := recent.length
    recentlyUpdatedDependencies := recent }

/-- Embedding of stats.py lines 121 to 139: the most recent update timestamp
of a record, the max of the two environment timestamps when both are present,
the single present one otherwise, and the creation timestamp as fallback when
neither update timestamp exists. -/
def lastUpdatedOf (d : DepDict) : Option Time :=
  match d.testLastUpdated, d.productionLastUpdated with
  | some t, some p => some (max t p)
  | some t, none => some t
  | none, some p => some p
  | none, none => d.createdAt

/-- Staleness test from stats.py line 142: a record is appended to the stale
list exactly when its `lastUpdatedOf` value exists and is strictly before the
threshold date. -/
def isStale (threshold : Time) (d : DepDict) : Bool :=
  match lastUpdatedOf d with
  | some lu => decide (lu < threshold)
  | none => false

/-- Loop state of the stale scan in stats.py lines 115 to 147: the stale name
list plus the tracked oldest record and its age in days. -/
structure StaleAcc where
  staleDeps : List String
  oldestDep : Option String
  oldestDays : Int
deriving Repr, DecidableEq

/-- One iteration of the stale loop in stats.py lines 119 to 147. -/
def staleStep (now threshold : Time) (acc : StaleAcc) (d : DepDict) :
    StaleAcc :=
  match lastUpdatedOf d with
  | none => acc
  | some lu =>
    if lu < threshold then
      let daysOld := daysBetween now lu
      if daysOld > acc.oldestDays then
        { staleDeps := acc.staleDeps ++ [d.name]
          oldestDep := some d.name
          oldestDays := daysOld }
      else
        { acc with staleDeps := acc.staleDeps ++ [d.name] }
    else acc

/-- Result shape of `get_stale_dependencies` in stats.py. -/
structure StaleSummary where
  staleDependencies : List String
  staleCount : Nat
  daysThreshold : Int
  oldestDependency : Option String
  oldestDependencyDays : Int
deriving Repr, DecidableEq

/-- Embedding of `get_stale_dependencies` from stats.py lines 97 to 155, with
the module-level collection and the captured `datetime.utcnow()` explicit. -/
def get_stale_dependencies (deps : List DepDict) (now : Time)
    (days_threshold : Int) : StaleSummary :=
  let acc := deps.foldl (staleStep now (now - days_threshold * secondsPerDay))
    { staleDeps := [], oldestDep := none, oldestDays := 0 }
  { staleDependencies := acc.staleDeps
    staleCount := acc.staleDeps.length
    daysThreshold := days_threshold
    oldestDependency := acc.oldestDep
    oldestDependencyDays := acc.oldestDays }

/-- Embedding of the `Dependency` row from models.py lines 17 to 35. The
columns `name` and `id` carry UNIQUE constraints (`unique=True` and primary
key); `created_at` and `updated_at` are non-nullable with default `utcnow`. -/
structure Dependency where
  id : String
  name : String
  test_version : String
  prod_version : Option String
  test_last_updated : Option Time
  production_last_updated : Option Time
  test_next_update : Option Time
  production_next_update : Option Time
  source_url : Option String
  changelog_url : Option String
  homepage_url : Option String
  created_at : Time
  updated_at : Time
deriving Repr, DecidableEq

/-- Embedding of `Dependency.to_dict` from models.py lines 37 to 55. The
datetime guards `if self.created_at else None` are always taken because
datetimes are always truthy and the columns are non-nullable. -/
def toDict (d : Dependency) : DepDict :=
  { id := d.id
    name := d.name
    testVersion := d.test_version
    prodVersion := d.prod_version
    testLastUpdated := d.test_last_updated
    productionLastUpdated := d.production_last_updated
    testNextUpdate := d.test_next_update
    productionNextUpdate := d.production_next_update
    sourceUrl := d.source_url
    changelogUrl := d.changelog_url
    homepageUrl := d.homepage_url
    createdAt := some d.created_at
    updatedAt := some d.updated_at }

/-- SQL LIKE pattern matching over character lists, as evaluated by the
`ilike` filter in service.py: the percent sign matches any character sequence,
the underscore matches exactly one character, and any other pattern character
matches case-insensitively. -/
def likeMatch : List Char → List Char → Bool
  | [], t => t.isEmpty
  | pc :: ps, t =>
    if pc = '%' then t.tails.any (fun s => likeMatch ps s)
    else
      match t with
      | [] => false
      | c :: ts =>
        if pc = '_' then likeMatch ps ts
        else (pc.toLower == c.toLower) && likeMatch ps ts

/-- Case-insensitive LIKE over strings, as in `Dependency.name.ilike(pat)`. -/
def sqlIlike (s pat : String) : Bool := likeMatch pat.data s.data

/-- Whether a character sequence contains no LIKE metacharacter (percent or
underscore): for such queries the pattern built by `search_dependencies`
behaves as a plain substring test. -/
def noMeta (l : List Char) : Bool :=
  l.all (fun c => !(c == '%') && !(c == '_'))

namespace DependencyService

/-- Embedding of `DependencyService.get_all_dependencies`: every row of the
dependencies table, serialized by `to_dict`, in table order. -/
def get_all_dependencies (db : List Dependency) : List DepDict :=
  db.map toDict

/-- Embedding of `DependencyService.get_dependency_by_id`: the first row whose
id column equals the argument, serialized, or None. -/
def get_dependency_by_id (db : List Dependency) (id : String) :
    Option DepDict :=
  (db.find? (fun r => r.id == id)).map toDict

/-- Embedding of `DependencyService.get_dependency_by_name`: the first row
whose name column equals the argument exactly, serialized, or None. -/
def get_dependency_by_name (db : List Dependency) (name : String) :
    Option DepDict :=
  (db.find? (fun r => r.name == name)).map toDict

/-- Embedding of `DependencyService.search_dependencies`: the rows whose name
matches the LIKE pattern built as percent, query, percent. -/
def search_dependencies (db : List Dependency) (query : String) :
    List DepDict :=
  (db.filter (fun r => sqlIlike r.name ("%" ++ query ++ "%"))).map toDict

/-- Embedding of `DependencyService.dependency_exists`: whether a row with the
given name exists. -/
def dependency_exists (db : List Dependency) (name : String) : Bool :=
  (db.find? (fun r => r.name == name)).isSome

/-- Row filter of `find_updated_between` in service.py lines 82 to 88, with
SQL null semantics: a comparison against a NULL column is not satisfied. -/
def updatedBetweenFilter (start stop : Time) (r : Dependency) : Bool :=
  (match r.test_last_updated with
   | some t => decide (start ≤ t) && decide (t ≤ stop)
   | none => false) ||
  (match r.production_last_updated with
   | some t => decide (start ≤ t) && decide (t ≤ stop)
   | none => false)

/-- Embedding of `DependencyService.find_updated_between`. -/
def find_updated_between (db : List Dependency) (start stop : Time) :
    List DepDict :=
  (db.filter (updatedBetweenFilter start stop)).map toDict

/-- Row filter of `find_next_update_between` in service.py lines 100 to 106. -/
def nextUpdateBetweenFilter (start stop : Time) (r : Dependency) : Bool :=
  (match r.test_next_update with
   | some t => decide (start ≤ t) && decide (t ≤ stop)
   | none => false) ||
  (match r.production_next_update with
   | some t => decide (start ≤ t) && decide (t ≤ stop)
   | none => false)

/-- Embedding of `DependencyService.find_next_update_between`. -/
def find_next_update_between (db : List Dependency) (start stop : Time) :
    List DepDict :=
  (db.filter (nextUpdateBetweenFilter start stop)).map toDict

/-- Optional keyword arguments of `create_dependency` (service.py lines 126 to
137); every field defaults to None via `kwargs.get`. -/
structure CreateKwargs where
  prod_version : Option String
  source_url : Option String
  changelog_url : Option String
  homepage_url : Option String
  test_last_updated : Option Time
  production_last_updated : Option Time
  test_next_update : Option Time
  production_next_update : Option Time
deriving Repr, DecidableEq

/-- The empty keyword-argument set: every optional field absent. -/
def noKwargs : CreateKwargs :=
  ⟨none, none, none, none, none, none, none, none⟩

/-- The row constructed by `create_dependency`: a fresh uuid for the id column
and `created_at = updated_at = now` are supplied by the column defaults of
models.py at insert time; the uuid and the captured now are explicit
parameters here. -/
def newRow (newId : String) (now : Time) (name test_version : String)
    (kw : CreateKwargs) : Dependency :=
  { id := newId
    name := name
    test_version := test_version
    prod_version := kw.prod_version
    test_last_updated := kw.test_last_updated
    production_last_updated := kw.production_last_updated
    test_next_update := kw.test_next_update
    production_next_update := kw.production_next_update
    source_url := kw.source_url
    changelog_url := kw.changelog_url
    homepage_url := kw.homepage_url
    created_at := now
    updated_at := now }

/-- Failure raised by `session.commit()` when an insert violates a UNIQUE
constraint declared in models.py (the unique name column or the primary-key
id column); the transaction is rolled back and the table is unchanged. -/
inductive CommitError where
  | integrityError (message : String)
deriving Repr, DecidableEq

/-- Embedding of `DependencyService.create_dependency` (service.py lines 111
to 143): build the row, add it and commit. The commit enforces the UNIQUE
constraints of models.py: on a duplicate name or id it raises IntegrityError
and leaves the table unchanged; otherwise the row is appended. The pair holds
the returned value (or the raised error) and the table after the call. -/
def create_dependency (db : List Dependency) (newId : String) (now : Time)
    (name test_version : String) (kw : CreateKwargs) :
    Except CommitError DepDict × List Dependency :=
  let row := newRow newId now name test_version kw
  if db.any (fun r => r.name == name) || db.any (fun r => r.id == newId) then
    (Except.error (CommitError.integrityError
      "UNIQUE constraint failed: dependencies"), db)
  else
    (Except.ok (toDict row), db ++ [row])

end DependencyService

/-!
Tool layer of main.py for the two stats tools. stats.py defines
`get_dependency_health_overview()` with no parameters and
`get_stale_dependencies(days_threshold = 180)` with a single optional
parameter, while main.py invokes them as `get_dependency_health_overview(
session)` and `get_stale_dependencies(session, days_threshold)`. A Python call
whose positional argument count exceeds the parameter count of the callee
raises TypeError; the tool bodies catch every exception and serialize it as
an error JSON object. In addition stats.py line 7 imports the module-level
name `DEPENDENCIES` from models, which models.py never defines, so no value
of the collection is ever available to a successful call; that missing global
is modelled as `models_DEPENDENCIES = none`.
-/

/-- Highest number of positional arguments accepted by
`get_dependency_health_overview` as defined in stats.py line 10 (it declares
no parameters). -/
def health_overview_max_params : Nat := 0

/-- Number of positional arguments passed by main.py line 217:
`get_dependency_health_overview(session)`. -/
def health_overview_call_args : Nat := 1

/-- Highest number of positional arguments accepted by
`get_stale_dependencies` as defined in stats.py line 97 (one parameter,
`days_threshold`). -/
def stale_dependencies_max_params : Nat := 1

/-- Number of positional arguments passed by main.py line 238:
`get_stale_dependencies(session, days_threshold)`. -/
def stale_dependencies_call_args : Nat := 2

/-- The module-level name `DEPENDENCIES` that stats.py line 7 imports from
models: models.py defines no such name, so no collection value exists. -/
def models_DEPENDENCIES : Option (List DepDict) := none

/-- TypeError message produced by the over-applied health-overview call. -/
def healthOverviewTypeError : String :=
  "get_dependency_health_overview() takes 0 positional arguments but 1 was given"

/-- TypeError message produced by the over-applied stale-dependencies call. -/
def staleDependenciesTypeError : String :=
  "get_stale_dependencies() takes from 0 to 1 positional arguments but 2 were given"

/-- Python call semantics for `get_dependency_health_overview`: with more
positional arguments than declared parameters the call raises TypeError;
otherwise the body runs against the module-level collection, which does not
exist. -/
def call_get_dependency_health_overview (args : Nat)
    (globalDeps : Option (List DepDict)) (now : Time) :
    Except String HealthOverview :=
  if args ≤ health_overview_max_params then
    match globalDeps with
    | some deps => Except.ok (get_dependency_health_overview deps now)
    | none => Except.error "cannot import name DEPENDENCIES from models"
  else
    Except.error healthOverviewTypeError

/-- Python call semantics for `get_stale_dependencies`, as above. -/
def call_get_stale_dependencies (args : Nat)
    (globalDeps : Option (List DepDict)) (now : Time) (days_threshold : Int) :
    Except String StaleSummary :=
  if args ≤ stale_dependencies_max_params then
    match globalDeps with
    | some deps => Except.ok (get_stale_dependencies deps now days_threshold)
    | none => Except.error "cannot import name DEPENDENCIES from models"
  else
    Except.error staleDependenciesTypeError

/-- The error payload with the single key error, as serialized by
`json.dumps` in the except branches of the tool functions in main.py. -/
def errorJson (msg : String) : String :=
  "\x7b\"error\": \"" ++ msg ++ "\"\x7d"

/-- Minimal rendering of a successful health overview, standing for
`json.dumps(overview)` in the ok branch of the tool. -/
def renderHealthOverview (ov : HealthOverview) : String :=
  "\x7b\"totalCount\": " ++ toString ov.totalCount ++ "\x7d"

/-- Minimal rendering of a successful stale summary, standing for
`json.dumps(stale_info)` in the ok branch of the tool. -/
def renderStaleSummary (s : StaleSummary) : String :=
  "\x7b\"staleCount\": " ++ toString s.staleCount ++ "\x7d"

/-- Embedding of the `get_health_overview` tool from main.py lines 201 to
222: call the stats function with one positional argument and serialize the
result, or serialize any raised exception as the error payload. -/
def get_health_overview (now : Time) : String :=
  match call_get_dependency_health_overview health_overview_call_args
      models_DEPENDENCIES now with
  | Except.ok ov => renderHealthOverview ov
  | Except.error e => errorJson e

/-- Embedding of the `get_stale_dependencies_tool` tool from main.py lines
226 to 243. -/
def get_stale_dependencies_tool (now : Time) (days_threshold : Int) : String :=
  match call_get_stale_dependencies stale_dependencies_call_args
      models_DEPENDENCIES now days_threshold with
  | Except.ok s => renderStaleSummary s
  | Except.error e => errorJson e

/-- Discriminator for the ok constructor of `Except`. -/
def exceptIsOk : Except ε α → Bool
  | Except.ok _ => true
  | Except.error _ => false

/-!
Concrete records used in counterexamples and witnesses. The reference
instant `now = 0` is used throughout; a timestamp `d` days in the past is
`-(d * 86400)`.
-/

/-- A record with no update timestamps at all, created at the reference
instant (age zero). -/
def freshNoUpdates : DepDict :=
  { id := "d-fresh", name := "fresh-dep", testVersion := "1.0",
    prodVersion := none, testLastUpdated := none,
    productionLastUpdated := none, testNextUpdate := none,
    productionNextUpdate := none, sourceUrl := none, changelogUrl := none,
    homepageUrl := none, createdAt := some 0, updatedAt := some 0 }

/-- A record with no update timestamps, created 200 days before the
reference instant. -/
def oldNoUpdates : DepDict :=
  { id := "d-old-created", name := "old-created-dep", testVersion := "1.0",
    prodVersion := none, testLastUpdated := none,
    productionLastUpdated := none, testNextUpdate := none,
    productionNextUpdate := none, sourceUrl := none, changelogUrl := none,
    homepageUrl := none, createdAt := some (-17280000),
    updatedAt := some (-17280000) }

/-- A record whose only update timestamp is 200 days old. -/
def dep200 : DepDict :=
  { id := "d-200", name := "old-dep", testVersion := "1.0",
    prodVersion := none, testLastUpdated := some (-17280000),
    productionLastUpdated := none, testNextUpdate := none,
    productionNextUpdate := none, sourceUrl := none, changelogUrl := none,
    homepageUrl := none, createdAt := some (-17280000),
    updatedAt := some 0 }

/-- The same record with its only update timestamp 10 days old. -/
def dep10 : DepDict :=
  { id := "d-10", name := "new-dep", testVersion := "1.0",
    prodVersion := none, testLastUpdated := some (-864000),
    productionLastUpdated := none, testNextUpdate := none,
    productionNextUpdate := none, sourceUrl := none, changelogUrl := none,
    homepageUrl := none, createdAt := some (-864000),
    updatedAt := some 0 }

/-- The spec example record libX with test version 1.0 and prod version
0.9. -/
def libX : DepDict :=
  { id := "d-libx", name := "libX", testVersion := "1.0",
    prodVersion := some "0.9", testLastUpdated := none,
    productionLastUpdated := none, testNextUpdate := none,
    productionNextUpdate := none, sourceUrl := none, changelogUrl := none,
    homepageUrl := none, createdAt := some 0, updatedAt := some 0 }

/-- A record whose prod version is a single space: a whitespace-only
string, truthy in Python. -/
def depWhitespaceProd : DepDict :=
  { id := "d-ws", name := "ws-dep", testVersion := "1.0",
    prodVersion := some " ", testLastUpdated := none,
    productionLastUpdated := none, testNextUpdate := none,
    productionNextUpdate := none, sourceUrl := none, changelogUrl := none,
    homepageUrl := none, createdAt := some 0, updatedAt := some 0 }

/-- A record with no prod version at all. -/
def depNullProd : DepDict :=
  { id := "d-null", name := "null-dep", testVersion := "1.0",
    prodVersion := none, testLastUpdated := none,
    productionLastUpdated := none, testNextUpdate := none,
    productionNextUpdate := none, sourceUrl := none, changelogUrl := none,
    homepageUrl := none, createdAt := some 0, updatedAt := some 0 }

/-- A table row named x, for the search counterexample. -/
def rowX : Dependency :=
  { id := "row-x", name := "x", test_version := "1.0", prod_version := none,
    test_last_updated := none, production_last_updated := none,
    test_next_update := none, production_next_update := none,
    source_url := none, changelog_url := none, homepage_url := none,
    created_at := 0, updated_at := 0 }

/-- A table row whose name is already taken, for the duplicate-create
witness. -/
def rowTaken : Dependency :=
  { id := "row-1", name := "taken", test_version := "1.0",
    prod_version := none, test_last_updated := none,
    production_last_updated := none, test_next_update := none,
    production_next_update := none, source_url := none,
    changelog_url := none, homepage_url := none,
    created_at := 0, updated_at := 0 }

/-!
Helper lemmas shared by several claims.
-/

/-- The stale scan accumulates exactly the names of the records whose
`lastUpdatedOf` value is strictly before the threshold, in traversal
order. -/
theorem foldl_staleStep_staleDeps (now threshold : Time)
    (deps : List DepDict) (acc : StaleAcc) :
    (deps.foldl (staleStep now threshold) acc).staleDeps
      = acc.staleDeps
        ++ (deps.filter (isStale threshold)).map (fun d => d.name) := by
  induction deps generalizing acc with
  | nil => simp
  | cons d rest ih =>
    simp only [List.foldl_cons, List.filter_cons]
    rw [ih]
    cases h : lastUpdatedOf d with
    | none =>
      simp [staleStep, h, isStale]
    | some lu =>
      by_cases hlt : lu < threshold
      · have hs : isStale threshold d = true := by simp [isStale, h, hlt]
        simp only [staleStep, h, if_pos hlt, hs, if_true, List.map_cons]
        split <;> simp
      · have hs : isStale threshold d = false := by simp [isStale, h, hlt]
        simp [staleStep, h, hlt, hs]

/-- Membership of a record name in a filtered name list, for collections
with pairwise distinct names. -/
theorem name_mem_filter_map (deps : List DepDict) (p : DepDict → Bool)
    (d : DepDict) (hmem : d ∈ deps)
    (hnames : (deps.map (fun x => x.name)).Nodup) :
    (d.name ∈ (deps.filter p).map (fun x => x.name)) ↔ p d = true := by
  constructor
  · intro h
    rcases List.mem_map.mp h with ⟨b, hbf, hbn⟩
    rcases List.mem_filter.mp hbf with ⟨hbmem, hbp⟩
    have hbd : b = d := List.inj_on_of_nodup_map hnames hbmem hmem hbn
    rwa [hbd] at hbp
  · intro hp
    exact List.mem_map.mpr ⟨d, List.mem_filter.mpr ⟨hmem, hp⟩, rfl⟩

/-- Claim C1 counterexample: a record with both update timestamps absent and
created at the reference instant is NOT classified stale by
`get_stale_dependencies` at the default threshold 180, contradicting the
claim that such a record is stale regardless of the threshold and of how
recently it was created. -/
theorem stale_fresh_record_cex :
    freshNoUpdates.testLastUpdated = none
  ∧ freshNoUpdates.productionLastUpdated = none
  ∧ (get_stale_dependencies [freshNoUpdates] 0 180).staleDependencies = []
  ∧ (get_stale_dependencies [freshNoUpdates] 0 180).staleCount = 0 := by
  decide

/-- Claim C1 (amended): for a dependency record whose test and production
update timestamps are both absent, `get_stale_dependencies` falls back to
`created_at` as the last-updated value; the record is classified stale
exactly when `created_at` is strictly older than now minus daysThreshold
days, and in that case its age for ranking purposes is now minus
`created_at` in days. -/
theorem stale_no_updates_created_fallback (now thr c : Int)
    (deps : List DepDict) (d : DepDict) (hmem : d ∈ deps)
    (hnames : (deps.map (fun x => x.name)).Nodup)
    (ht : d.testLastUpdated = none) (hp : d.productionLastUpdated = none)
    (hc : d.createdAt = some c) :
    lastUpdatedOf d = some c
  ∧ ((d.name ∈ (get_stale_dependencies deps now thr).staleDependencies)
      ↔ c < now - thr * secondsPerDay)
  ∧ (c < now - thr * secondsPerDay → 0 < daysBetween now c →
        (get_stale_dependencies [d] now thr).oldestDependency = some d.name
      ∧ (get_stale_dependencies [d] now thr).oldestDependencyDays
          = daysBetween now c) := by
  have hlast : lastUpdatedOf d = some c := by
    simp [lastUpdatedOf, ht, hp, hc]
  refine ⟨hlast, ?_, ?_⟩
  · have hst : (get_stale_dependencies deps now thr).staleDependencies
        = (deps.filter (isStale (now - thr * secondsPerDay))).map
            (fun x => x.name) := by
      simp [get_stale_dependencies, foldl_staleStep_staleDeps]
    rw [hst, name_mem_filter_map deps _ d hmem hnames]
    simp [isStale, hlast]
  · intro hstale hpos
    have hgt : daysBetween now c > (0 : Int) := hpos
    constructor <;>
      simp [get_stale_dependencies, staleStep, hlast, if_pos hstale, hgt]

/-- Claim C1 witness: the amended statement evaluated on a record with no
update timestamps created 200 days before the reference instant. -/
theorem stale_no_updates_created_fallback_witness :
    lastUpdatedOf oldNoUpdates = some (-17280000)
  ∧ ((oldNoUpdates.name
        ∈ (get_stale_dependencies [oldNoUpdates] 0 180).staleDependencies)
      ↔ (-17280000 : Int) < 0 - 180 * secondsPerDay)
  ∧ ((-17280000 : Int) < 0 - 180 * secondsPerDay →
      0 < daysBetween 0 (-17280000) →
        (get_stale_dependencies [oldNoUpdates] 0 180).oldestDependency
          = some oldNoUpdates.name
      ∧ (get_stale_dependencies [oldNoUpdates] 0 180).oldestDependencyDays
          = daysBetween 0 (-17280000)) :=
  stale_no_updates_created_fallback 0 180 (-17280000) [oldNoUpdates]
    oldNoUpdates (List.mem_singleton_self _) (by decide) rfl rfl rfl

/-- Claim C4: `get_stale_dependencies` computes the last-updated value of a
record as the max of the two update timestamps when both are present and as
the single present one otherwise, classifies a record stale exactly when
that value is strictly older than now minus daysThreshold days, and reports
its age as now minus last-updated in days. In particular, with threshold
180, a record whose only update timestamp is 200 days old is stale with age
200, and the same record updated 10 days ago is not stale. -/
theorem stale_threshold_classification (now thr : Int) (deps : List DepDict)
    (d : DepDict) (hmem : d ∈ deps)
    (hnames : (deps.map (fun x => x.name)).Nodup) :
    (∀ t p, d.testLastUpdated = some t → d.productionLastUpdated = some p →
        lastUpdatedOf d = some (max t p))
  ∧ (∀ t, d.testLastUpdated = some t → d.productionLastUpdated = none →
        lastUpdatedOf d = some t)
  ∧ (∀ p, d.testLastUpdated = none → d.productionLastUpdated = some p →
        lastUpdatedOf d = some p)
  ∧ (∀ lu, lastUpdatedOf d = some lu →
        ((d.name ∈ (get_stale_dependencies deps now thr).staleDependencies)
          ↔ lu < now - thr * secondsPerDay))
  ∧ (∀ lu, lastUpdatedOf d = some lu → lu < now - thr * secondsPerDay →
        0 < daysBetween now lu →
        (get_stale_dependencies [d] now thr).oldestDependencyDays
          = daysBetween now lu)
  ∧ (get_stale_dependencies [dep200] 0 180).staleDependencies = ["old-dep"]
  ∧ (get_stale_dependencies [dep200] 0 180).oldestDependencyDays = 200
  ∧ (get_stale_dependencies [dep10] 0 180).staleDependencies = [] := by
  refine ⟨?_, ?_, ?_, ?_, ?_, by decide, by decide, by decide⟩
  · intro t p ht hp
    simp [lastUpdatedOf, ht, hp]
  · intro t ht hp
    simp [lastUpdatedOf, ht, hp]
  · intro p ht hp
    simp [lastUpdatedOf, ht, hp]
  · intro lu hlast
    have hst : (get_stale_dependencies deps now thr).staleDependencies
        = (deps.filter (isStale (now - thr * secondsPerDay))).map
            (fun x => x.name) := by
      simp [get_stale_dependencies, foldl_staleStep_staleDeps]
    rw [hst, name_mem_filter_map deps _ d hmem hnames]
    simp [isStale, hlast]
  · intro lu hlast hstale hpos
    have hgt : daysBetween now lu > (0 : Int) := hpos
    simp [get_stale_dependencies, staleStep, hlast, if_pos hstale, hgt]

/-- Claim C4 witness: the classification evaluated on the record whose only
update timestamp is 200 days old. -/
theorem stale_threshold_classification_witness :
    (∀ t p, dep200.testLastUpdated = some t →
        dep200.productionLastUpdated = some p →
        lastUpdatedOf dep200 = some (max t p))
  ∧ (∀ t, dep200.testLastUpdated = some t →
        dep200.productionLastUpdated = none → lastUpdatedOf dep200 = some t)
  ∧ (∀ p, dep200.testLastUpdated = none →
        dep200.productionLastUpdated = some p → lastUpdatedOf dep200 = some p)
  ∧ (∀ lu, lastUpdatedOf dep200 = some lu →
        ((dep200.name
            ∈ (get_stale_dependencies [dep200] 0 180).staleDependencies)
          ↔ lu < 0 - 180 * secondsPerDay))
  ∧ (∀ lu, lastUpdatedOf dep200 = some lu → lu < 0 - 180 * secondsPerDay →
        0 < daysBetween 0 lu →
        (get_stale_dependencies [dep200] 0 180).oldestDependencyDays
          = daysBetween 0 lu)
  ∧ (get_stale_dependencies [dep200] 0 180).staleDependencies = ["old-dep"]
  ∧ (get_stale_dependencies [dep200] 0 180).oldestDependencyDays = 200
  ∧ (get_stale_dependencies [dep10] 0 180).staleDependencies = [] :=
  stale_threshold_classification 0 180 [dep200] dep200
    (List.mem_singleton_self _) (by decide)

/-- Claim C5: the version-drift category of the health overview contains
exactly the records whose prod version is present (non-null and non-empty)
and differs from the test version under plain string inequality; a single
dependency libX with test version 1.0 and prod version 0.9 yields drift
count 1 and test-only count 0. -/
theorem version_drift_exact (deps : List DepDict) (now : Time) :
    (get_dependency_health_overview deps now).versionDriftDependencies
      = (deps.filter isVersionDrift).map (fun d => d.name)
  ∧ (get_dependency_health_overview deps now).versionDriftCount
      = ((deps.filter isVersionDrift).map (fun d => d.name)).length
  ∧ (∀ d, isVersionDrift d = true
      ↔ ∃ p, d.prodVersion = some p ∧ p ≠ "" ∧ d.testVersion ≠ p)
  ∧ (get_dependency_health_overview [libX] now).versionDriftCount = 1
  ∧ (get_dependency_health_overview [libX] now).testOnlyCount = 0 := by
  refine ⟨rfl, rfl, ?_, rfl, rfl⟩
  intro d
  cases hp : d.prodVersion with
  | none => simp [isVersionDrift, hp]
  | some p =>
    have he : p.isEmpty = false ↔ ¬p = "" := by
      rw [Bool.eq_false_iff]
      exact not_congr (String.isEmpty_iff p)
    simp only [isVersionDrift, hp, Bool.and_eq_true, Bool.not_eq_true', he,
      bne_iff_ne, Ne, Option.some.injEq]
    constructor
    · rintro ⟨h1, h2⟩
      exact ⟨p, rfl, h1, h2⟩
    · rintro ⟨q, hq, hq1, hq2⟩
      subst hq
      exact ⟨hq1, hq2⟩

/-- Claim C6 counterexample: a record whose prod version is a single space
(a whitespace-only string, hence empty after trimming) is NOT classified
test-only by the health overview, because the code tests Python string
truthiness without trimming. -/
theorem test_only_whitespace_cex :
    depWhitespaceProd.prodVersion = some " "
  ∧ (" ").data.all Char.isWhitespace = true
  ∧ (get_dependency_health_overview [depWhitespaceProd] 0).testOnlyDependencies
      = []
  ∧ (get_dependency_health_overview [depWhitespaceProd] 0).testOnlyCount
      = 0 := by
  decide

/-- Claim C6 (amended): the health overview classifies a record test-only
exactly when its prod version is null or the empty string, with no
whitespace trimming, so a whitespace-only prod version does not count as
test-only; every record with a null prod version is included in the
test-only names and excluded from the version-drift names. -/
theorem test_only_no_trim (deps : List DepDict) (now : Time)
    (hnames : (deps.map (fun x => x.name)).Nodup) :
    (get_dependency_health_overview deps now).testOnlyDependencies
      = (deps.filter isTestOnly).map (fun d => d.name)
  ∧ (∀ d, isTestOnly d = true
      ↔ (d.prodVersion = none ∨ d.prodVersion = some ""))
  ∧ (∀ d, d ∈ deps → d.prodVersion = none →
        (d.name
          ∈ (get_dependency_health_overview deps now).testOnlyDependencies)
      ∧ (d.name
          ∉ (get_dependency_health_overview deps now).versionDriftDependencies))
  ∧ isTestOnly depWhitespaceProd = false := by
  refine ⟨rfl, ?_, ?_, by decide⟩
  · intro d
    cases hp : d.prodVersion with
    | none => simp [isTestOnly, truthyOptStr, hp]
    | some p => simp [isTestOnly, truthyOptStr, hp, String.isEmpty_iff]
  · intro d hd hnull
    constructor
    · exact (name_mem_filter_map deps isTestOnly d hd hnames).mpr
        (by simp [isTestOnly, truthyOptStr, hnull])
    · intro hmm
      have hdrift := (name_mem_filter_map deps isVersionDrift d hd
        hnames).mp hmm
      simp [isVersionDrift, hnull] at hdrift

/-- Claim C6 witness: the amended statement evaluated on the singleton
collection holding the record with a null prod version. -/
theorem test_only_no_trim_witness :
    (get_dependency_health_overview [depNullProd] 0).testOnlyDependencies
      = ([depNullProd].filter isTestOnly).map (fun d => d.name)
  ∧ (∀ d, isTestOnly d = true
      ↔ (d.prodVersion = none ∨ d.prodVersion = some ""))
  ∧ (∀ d, d ∈ [depNullProd] → d.prodVersion = none →
        (d.name
          ∈ (get_dependency_health_overview [depNullProd] 0).testOnlyDependencies)
      ∧ (d.name
          ∉ (get_dependency_health_overview [depNullProd] 0).versionDriftDependencies))
  ∧ isTestOnly depWhitespaceProd = false :=
  test_only_no_trim [depNullProd] 0 (by decide)

/-- Claim C7: the two date-range scans return exactly the records with a
matching timestamp in the inclusive range on either checked field, each
matching record at most as often as it occurs in the table (a single filter
pass, so a record matching on both fields is never duplicated). -/
theorem date_range_queries_inclusive (db : List Dependency)
    (start stop : Time) :
    (∀ r, DependencyService.updatedBetweenFilter start stop r = true
      ↔ ((∃ t, r.test_last_updated = some t ∧ start ≤ t ∧ t ≤ stop)
        ∨ (∃ t, r.production_last_updated = some t ∧ start ≤ t ∧ t ≤ stop)))
  ∧ DependencyService.find_updated_between db start stop
      = (db.filter (DependencyService.updatedBetweenFilter start stop)).map
          toDict
  ∧ (∀ x, (DependencyService.find_updated_between db start stop).count x
      ≤ (db.map toDict).count x)
  ∧ (∀ r, DependencyService.nextUpdateBetweenFilter start stop r = true
      ↔ ((∃ t, r.test_next_update = some t ∧ start ≤ t ∧ t ≤ stop)
        ∨ (∃ t, r.production_next_update = some t ∧ start ≤ t ∧ t ≤ stop)))
  ∧ DependencyService.find_next_update_between db start stop
      = (db.filter (DependencyService.nextUpdateBetweenFilter start stop)).map
          toDict
  ∧ (∀ x, (DependencyService.find_next_update_between db start stop).count x
      ≤ (db.map toDict).count x) := by
  refine ⟨?_, rfl, ?_, ?_, rfl, ?_⟩
  · intro r
    cases ht : r.test_last_updated with
    | none =>
      cases hp : r.production_last_updated with
      | none => simp [DependencyService.updatedBetweenFilter, ht, hp]
      | some b => simp [DependencyService.updatedBetweenFilter, ht, hp]
    | some a =>
      cases hp : r.production_last_updated with
      | none => simp [DependencyService.updatedBetweenFilter, ht, hp]
      | some b => simp [DependencyService.updatedBetweenFilter, ht, hp]
  · intro x
    exact ((List.filter_sublist db).map toDict).count_le x
  · intro r
    cases ht : r.test_next_update with
    | none =>
      cases hp : r.production_next_update with
      | none => simp [DependencyService.nextUpdateBetweenFilter, ht, hp]
      | some b => simp [DependencyService.nextUpdateBetweenFilter, ht, hp]
    | some a =>
      cases hp : r.production_next_update with
      | none => simp [DependencyService.nextUpdateBetweenFilter, ht, hp]
      | some b => simp [DependencyService.nextUpdateBetweenFilter, ht, hp]
  · intro x
    exact ((List.filter_sublist db).map toDict).count_le x

/-- A Bool equals the decision of a proposition it is equivalent to. -/
theorem bool_eq_decide {b : Bool} {P : Prop} [Decidable P]
    (h : b = true ↔ P) : b = decide P := by
  by_cases hP : P
  · simp [hP, h.mpr hP]
  · have hb : b ≠ true := fun hh => hP (h.mp hh)
    simp [hP, Bool.eq_false_iff.mpr hb]

/-- A single trailing percent pattern matches every text. -/
theorem likeMatch_percent_nil (s : List Char) : likeMatch ['%'] s = true := by
  have h1 : likeMatch ['%'] s = s.tails.any (fun t => likeMatch [] t) := by
    simp [likeMatch]
  rw [h1]
  refine List.any_eq_true.mpr ⟨[], (List.mem_tails _ _).mpr List.nil_suffix, ?_⟩
  simp [likeMatch]

/-- LIKE with a metacharacter-free pattern followed by one trailing percent
tests a case-insensitive prefix. -/
theorem likeMatch_append_percent (q : List Char) (hq : noMeta q = true) :
    ∀ s, (likeMatch (q ++ ['%']) s = true
      ↔ (q.map Char.toLower) <+: (s.map Char.toLower)) := by
  induction q with
  | nil =>
    intro s
    simp [likeMatch_percent_nil s, List.nil_prefix]
  | cons a as ih =>
    have hmeta := List.all_eq_true.mp hq
    have ha := hmeta a (List.mem_cons_self a as)
    have hap : ¬(a = '%') := by
      intro hh
      simp [hh] at ha
    have hau : ¬(a = '_') := by
      intro hh
      simp [hh] at ha
    have has : noMeta as = true :=
      List.all_eq_true.mpr fun c hc => hmeta c (List.mem_cons_of_mem a hc)
    intro s
    cases s with
    | nil =>
      simp [likeMatch, hap]
    | cons c ts =>
      simp [likeMatch, hap, hau, ih has ts]

/-- The pattern percent-query-percent built by `search_dependencies` tests
the case-insensitive substring relation when the query is free of LIKE
metacharacters. -/
theorem likeMatch_contains (q : List Char) (hq : noMeta q = true)
    (t : List Char) :
    likeMatch ('%' :: (q ++ ['%'])) t = true
      ↔ (q.map Char.toLower) <:+: (t.map Char.toLower) := by
  have h1 : likeMatch ('%' :: (q ++ ['%'])) t
      = t.tails.any (fun s => likeMatch (q ++ ['%']) s) := by
    simp [likeMatch]
  rw [h1, List.any_eq_true]
  constructor
  · rintro ⟨s, hs, hls⟩
    have hsuf : s <:+ t := (List.mem_tails _ _).mp hs
    have hpre := (likeMatch_append_percent q hq s).mp hls
    exact List.infix_iff_prefix_suffix.mpr
      ⟨s.map Char.toLower, hpre, List.IsSuffix.map _ hsuf⟩
  · intro hinf
    rcases List.infix_iff_prefix_suffix.mp hinf with ⟨u, hpre, hsuf⟩
    rcases hsuf with ⟨pre, hpe⟩
    rcases List.map_eq_append_iff.mp hpe.symm with ⟨l1, l2, ht, hm1, hm2⟩
    refine ⟨l2, (List.mem_tails _ _).mpr ⟨l1, ht.symm⟩, ?_⟩
    refine (likeMatch_append_percent q hq l2).mpr ?_
    rw [hm2]
    exact hpre

/-- Claim C8 counterexample: searching for a single underscore returns the
record named x even though the underscore is not a substring of x; the
underscore acts as a LIKE wildcard matching any single character, so the
search result is not the case-insensitive-substring match set for every
query string. -/
theorem search_wildcard_cex :
    DependencyService.search_dependencies [rowX] "_" = [toDict rowX]
  ∧ decide ((("_").data.map Char.toLower)
      <:+: (("x").data.map Char.toLower)) = false := by
  decide

/-- Claim C8 (amended): for every query free of the LIKE metacharacters
percent and underscore, search returns exactly the records whose name
contains the query as a case-insensitive substring, and the empty query
returns the full collection; a metacharacter in the query acts as a LIKE
wildcard rather than a literal character. An empty result is the empty
list, not an error. -/
theorem search_ci_substring (db : List Dependency) (q : String)
    (hq : noMeta q.data = true) :
    DependencyService.search_dependencies db q
      = (db.filter (fun r => decide ((q.data.map Char.toLower)
          <:+: (r.name.data.map Char.toLower)))).map toDict
  ∧ DependencyService.search_dependencies db ""
      = DependencyService.get_all_dependencies db := by
  constructor
  · have hpt : ∀ r : Dependency,
        sqlIlike r.name ("%" ++ q ++ "%")
          = decide ((q.data.map Char.toLower)
              <:+: (r.name.data.map Char.toLower)) := by
      intro r
      have hdata : ("%" ++ q ++ "%").data = '%' :: (q.data ++ ['%']) := by
        simp [String.data_append]
      have hiff := likeMatch_contains q.data hq r.name.data
      refine bool_eq_decide ?_
      rw [sqlIlike, hdata]
      exact hiff
    unfold DependencyService.search_dependencies
    rw [List.filter_congr (fun r hr => hpt r)]
  · have hall : ∀ r : Dependency,
        sqlIlike r.name ("%" ++ "" ++ "%") = true := by
      intro r
      have hdata : ("%" ++ "" ++ "%").data = '%' :: ([] ++ ['%']) := rfl
      rw [sqlIlike, hdata]
      have h1 : likeMatch ('%' :: ([] ++ ['%'])) r.name.data
          = r.name.data.tails.any (fun s => likeMatch ['%'] s) := by
        simp [likeMatch]
      rw [h1]
      exact List.any_eq_true.mpr
        ⟨r.name.data, (List.mem_tails _ _).mpr (List.suffix_refl _),
          likeMatch_percent_nil _⟩
    unfold DependencyService.search_dependencies
      DependencyService.get_all_dependencies
    rw [List.filter_eq_self.mpr (fun r hr => hall r)]

/-- Claim C8 witness: the amended search characterization evaluated on the
one-row table at the metacharacter-free query x. -/
theorem search_ci_substring_witness :
    DependencyService.search_dependencies [rowX] "x"
      = ([rowX].filter (fun r => decide ((("x").data.map Char.toLower)
          <:+: (r.name.data.map Char.toLower)))).map toDict
  ∧ DependencyService.search_dependencies [rowX] ""
      = DependencyService.get_all_dependencies [rowX] :=
  search_ci_substring [rowX] "x" (by decide)

/-- Claim C2: every invocation of the two stats tools returns the error
JSON payload and never a computed summary. main.py passes a session
argument that the stats functions do not declare, so the call raises
TypeError inside the catch-all handler; independently, the module-level
DEPENDENCIES collection the function bodies read is never defined by
models.py, so no argument count yields a successful call either. -/
theorem tools_always_return_error_payload (now : Time)
    (days_threshold : Int) :
    get_health_overview now = errorJson healthOverviewTypeError
  ∧ get_stale_dependencies_tool now days_threshold
      = errorJson staleDependenciesTypeError
  ∧ (∀ args, exceptIsOk (call_get_dependency_health_overview args
        models_DEPENDENCIES now) = false)
  ∧ (∀ args, exceptIsOk (call_get_stale_dependencies args
        models_DEPENDENCIES now days_threshold) = false) := by
  refine ⟨rfl, rfl, ?_, ?_⟩
  · intro args
    by_cases h : args ≤ health_overview_max_params <;>
      simp [call_get_dependency_health_overview, models_DEPENDENCIES,
        exceptIsOk, h]
  · intro args
    by_cases h : args ≤ stale_dependencies_max_params <;>
      simp [call_get_stale_dependencies, models_DEPENDENCIES, exceptIsOk, h]

/-- Claim C3: create with a name that already exists fails (the commit
violates the UNIQUE name constraint declared in models.py, the
duplicate-name failure of the store) and leaves the collection unchanged
with no partial record persisted; the rejection happens inside the create
operation itself, independent of the exists pre-check the caller in
main.py performs. -/
theorem create_duplicate_name_rejected (db : List Dependency)
    (newId : String) (now : Time) (name test_version : String)
    (kw : DependencyService.CreateKwargs)
    (h : DependencyService.dependency_exists db name = true) :
    (DependencyService.create_dependency db newId now name test_version
        kw).1
      = Except.error (DependencyService.CommitError.integrityError
          "UNIQUE constraint failed: dependencies")
  ∧ (DependencyService.create_dependency db newId now name test_version
        kw).2 = db
  ∧ ((DependencyService.create_dependency db newId now name test_version
        kw).2).length = db.length := by
  have hany : db.any (fun r => r.name == name) = true := by
    by_contra hfalse
    have hnone : db.find? (fun r => r.name == name) = none :=
      List.find?_eq_none.mpr fun x hx => by
        simpa using (List.any_eq_false.mp (Bool.eq_false_iff.mpr hfalse)) x hx
    unfold DependencyService.dependency_exists at h
    rw [hnone] at h
    simp at h
  simp [DependencyService.create_dependency, hany]

/-- Claim C3 witness: the duplicate rejection evaluated on the one-row
table whose single name is already taken. -/
theorem create_duplicate_name_rejected_witness :
    (DependencyService.create_dependency [rowTaken] "row-2" 0 "taken" "2.0"
        DependencyService.noKwargs).1
      = Except.error (DependencyService.CommitError.integrityError
          "UNIQUE constraint failed: dependencies")
  ∧ (DependencyService.create_dependency [rowTaken] "row-2" 0 "taken" "2.0"
        DependencyService.noKwargs).2 = [rowTaken]
  ∧ ((DependencyService.create_dependency [rowTaken] "row-2" 0 "taken" "2.0"
        DependencyService.noKwargs).2).length = [rowTaken].length :=
  create_duplicate_name_rejected [rowTaken] "row-2" 0 "taken" "2.0"
    DependencyService.noKwargs (by decide)

/-- Claim C9: after a successful create returning a record, exists on the
created name is true, lookup by the fresh id and lookup by the name both
return exactly the created record, and that record is field for field the
constructed row with both audit timestamps auto-populated to the capture
instant. -/
theorem create_roundtrip (db : List Dependency) (newId : String)
    (now : Time) (name test_version : String)
    (kw : DependencyService.CreateKwargs) (dict : DepDict)
    (db2 : List Dependency)
    (h : DependencyService.create_dependency db newId now name test_version
        kw = (Except.ok dict, db2)) :
    DependencyService.dependency_exists db2 name = true
  ∧ DependencyService.get_dependency_by_id db2 newId = some dict
  ∧ DependencyService.get_dependency_by_name db2 name = some dict
  ∧ dict = toDict (DependencyService.newRow newId now name test_version kw)
  ∧ db2 = db ++ [DependencyService.newRow newId now name test_version kw]
    := by
  unfold DependencyService.create_dependency at h
  by_cases hcond : (db.any (fun r => r.name == name)
      || db.any (fun r => r.id == newId)) = true
  · rw [if_pos hcond] at h
    simp [Prod.ext_iff] at h
  · rw [if_neg hcond] at h
    rw [Prod.mk.injEq] at h
    obtain ⟨hd, hdb⟩ := h
    injection hd with hd
    obtain ⟨hname, hid⟩ :=
      Bool.or_eq_false_iff.mp (Bool.eq_false_iff.mpr hcond)
    have hfname : db.find? (fun r => r.name == name) = none :=
      List.find?_eq_none.mpr fun x hx =>
        by simpa using (List.any_eq_false.mp hname) x hx
    have hfid : db.find? (fun r => r.id == newId) = none :=
      List.find?_eq_none.mpr fun x hx =>
        by simpa using (List.any_eq_false.mp hid) x hx
    subst hdb
    have hprow : ((DependencyService.newRow newId now name test_version
        kw).name == name) = true := by
      simp [DependencyService.newRow]
    have hprowid : ((DependencyService.newRow newId now name test_version
        kw).id == newId) = true := by
      simp [DependencyService.newRow]
    have hfrown : List.find? (fun r => r.name == name)
        [DependencyService.newRow newId now name test_version kw]
        = some (DependencyService.newRow newId now name test_version kw) :=
      List.find?_cons_of_pos _ hprow
    have hfrowi : List.find? (fun r => r.id == newId)
        [DependencyService.newRow newId now name test_version kw]
        = some (DependencyService.newRow newId now name test_version kw) :=
      List.find?_cons_of_pos _ hprowid
    refine ⟨?_, ?_, ?_, hd.symm, rfl⟩
    · unfold DependencyService.dependency_exists
      rw [List.find?_append, hfname, hfrown]
      simp
    · unfold DependencyService.get_dependency_by_id
      rw [List.find?_append, hfid, hfrowi]
      simp [hd]
    · unfold DependencyService.get_dependency_by_name
      rw [List.find?_append, hfname, hfrown]
      simp [hd]

/-- Claim C9 witness: the round-trip evaluated for a create on the empty
table. -/
theorem create_roundtrip_witness :
    DependencyService.dependency_exists
      [DependencyService.newRow "id-9" 0 "react" "18.0"
        DependencyService.noKwargs] "react" = true
  ∧ DependencyService.get_dependency_by_id
      [DependencyService.newRow "id-9" 0 "react" "18.0"
        DependencyService.noKwargs] "id-9"
      = some (toDict (DependencyService.newRow "id-9" 0 "react" "18.0"
          DependencyService.noKwargs))
  ∧ DependencyService.get_dependency_by_name
      [DependencyService.newRow "id-9" 0 "react" "18.0"
        DependencyService.noKwargs] "react"
      = some (toDict (DependencyService.newRow "id-9" 0 "react" "18.0"
          DependencyService.noKwargs))
  ∧ toDict (DependencyService.newRow "id-9" 0 "react" "18.0"
        DependencyService.noKwargs)
      = toDict (DependencyService.newRow "id-9" 0 "react" "18.0"
          DependencyService.noKwargs)
  ∧ [DependencyService.newRow "id-9" 0 "react" "18.0"
        DependencyService.noKwargs]
      = [] ++ [DependencyService.newRow "id-9" 0 "react" "18.0"
          DependencyService.noKwargs] :=
  create_roundtrip [] "id-9" 0 "react" "18.0" DependencyService.noKwargs
    (toDict (DependencyService.newRow "id-9" 0 "react" "18.0"
      DependencyService.noKwargs))
    [DependencyService.newRow "id-9" 0 "react" "18.0"
      DependencyService.noKwargs] rfl

/-- Claim C10 counterexample: create called with empty name and empty test
version succeeds and persists a record; the service performs no validation
of the required fields and no ValidationError is raised anywhere. -/
theorem create_empty_fields_accepted_cex :
    (DependencyService.create_dependency [] "id-1" 0 "" ""
        DependencyService.noKwargs).1
      = Except.ok (toDict (DependencyService.newRow "id-1" 0 "" ""
          DependencyService.noKwargs))
  ∧ ((DependencyService.create_dependency [] "id-1" 0 "" ""
        DependencyService.noKwargs).2).length = 1 :=
  ⟨rfl, rfl⟩

/-- Claim C10 (amended): create applies no validation to its required
fields: called with name and test_version both empty it succeeds and
persists the record whenever the uniqueness constraints allow the insert;
only a null value would be rejected by the non-nullable columns, and no
ValidationError exists in the code. -/
theorem create_no_validation (db : List Dependency) (newId : String)
    (now : Time) (kw : DependencyService.CreateKwargs)
    (h1 : db.any (fun r => r.name == "") = false)
    (h2 : db.any (fun r => r.id == newId) = false) :
    DependencyService.create_dependency db newId now "" "" kw
      = (Except.ok (toDict (DependencyService.newRow newId now "" "" kw)),
          db ++ [DependencyService.newRow newId now "" "" kw]) := by
  simp [DependencyService.create_dependency, h1, h2]

/-- Claim C10 witness: the unvalidated create evaluated on the empty
table. -/
theorem create_no_validation_witness :
    DependencyService.create_dependency [] "id-1" 0 "" ""
        DependencyService.noKwargs
      = (Except.ok (toDict (DependencyService.newRow "id-1" 0 "" ""
          DependencyService.noKwargs)),
          [] ++ [DependencyService.newRow "id-1" 0 "" ""
            DependencyService.noKwargs]) :=
  create_no_validation [] "id-1" 0 DependencyService.noKwargs rfl rfl

end DepTrack
